import Mathlib

/-!
Verification of the Slack webhook endpoint (`src/endpoints/slack.py`,
class `SlackEndpoint`).

The Python handler is embedded shallowly:

* JSON values (`r.get_json()` results, event payloads, Slack API replies,
  backend replies) become the inductive type `JVal`.  JSON numbers are
  modelled as integers; no claim involves fractional literals.
* Python dynamic behaviour is made explicit: `dict.get` on a non-dict
  raises `AttributeError`, `int(str)` raises `ValueError` on a
  non-numeric string, truthiness and `==` follow Python semantics on the
  modelled values.  A computation that may raise returns
  `Except PyExc α`.
* The three external collaborators (Slack `conversations_replies`,
  the backend `chat.invoke`, Slack `chat_postMessage`) are opaque
  services; an `Env` record supplies the outcome of each call, per the
  contracts the SDK documents (the Slack calls fail with
  `SlackApiError`, carried as its message string; the backend call may
  raise an arbitrary exception).  `conversations_replies` is modelled
  as producing the `messages` list of its response directly.
* Every externally visible call the handler makes is recorded, in
  order, in a `List Effect` trace, so that "no backend or platform
  call is made" is a statement about the trace.

The functions `invoke`, `handleMention`, `handleMessage`,
`processAndRespond` and `getThreadHistory` are line-by-line
translations of `SlackEndpoint._invoke`, `_handle_mention`,
`_handle_message`, `_process_and_respond` and `_get_thread_history`.
-/

/-- A JSON value, as produced by `request.get_json()` / the Slack SDK.
Numbers are modelled as integers (no claim involves floats). -/
inductive JVal where
  | jnull
  | jbool (b : Bool)
  | jnum (n : Int)
  | jstr (s : String)
  | jarr (elems : List JVal)
  | jobj (fields : List (String × JVal))

/-- Python exceptions that the embedded code can raise.  Each carries
the text `str(e)` would produce (exact wording of messages raised by
builtins is not semantically relevant to any claim). -/
inductive PyExc where
  | valueError (msg : String)
  | attributeError (msg : String)
  | badRequest (msg : String)
  | slackApiError (msg : String)
  | exc (msg : String)
deriving DecidableEq

/-- `str(e)` for a modelled exception. -/
def PyExc.str : PyExc → String
  | .valueError m => m
  | .attributeError m => m
  | .badRequest m => m
  | .slackApiError m => m
  | .exc m => m

/-- First binding of a key in a JSON-object field list (Python dicts
hold at most one binding per key; JSON decoding keeps one). -/
def objLookup : List (String × JVal) → String → Option JVal
  | [], _ => none
  | (k, v) :: rest, key => if k = key then some v else objLookup rest key

/-- `d[key] or default` semantics of Python `dict.get(key, default)`
on a field list: the stored value when the key is present, else the
default. -/
def objGetD (fields : List (String × JVal)) (key : String) (dflt : JVal) : JVal :=
  (objLookup fields key).getD dflt

/-- Message of the `AttributeError` raised by calling `.get` on a
non-dict value. -/
def noGetMsg : String := "object has no attribute get"

/-- Python `v.get(key)`: returns the value (or `None`) when `v` is a
dict, raises `AttributeError` otherwise. -/
def pyGet (v : JVal) (key : String) : Except PyExc JVal :=
  match v with
  | .jobj fields => .ok (objGetD fields key .jnull)
  | _ => .error (.attributeError noGetMsg)

/-- Python `v.get(key, dflt)`: like `pyGet` but with an explicit
default for a missing key. -/
def pyGetD (v : JVal) (key : String) (dflt : JVal) : Except PyExc JVal :=
  match v with
  | .jobj fields => .ok (objGetD fields key dflt)
  | _ => .error (.attributeError noGetMsg)

/-- Python truthiness of a JSON value: `None`, `False`, `0`, `""`,
`[]` and the empty dict are falsy. -/
def pyTruthy : JVal → Bool
  | .jnull => false
  | .jbool b => b
  | .jnum n => n ≠ 0
  | .jstr s => s ≠ ""
  | .jarr elems => !elems.isEmpty
  | .jobj fields => !fields.isEmpty

mutual
/-- Python `==` on the modelled values: structural, recursing into
containers, except that booleans compare equal to the corresponding
integers (`True == 1`, `False == 0`), as in Python.  Dict comparison
is modelled as ordered field-list equality (no claim compares
dicts). -/
def pyEqVal : JVal → JVal → Bool
  | .jnull, .jnull => true
  | .jbool x, .jbool y => x == y
  | .jbool x, .jnum n => (if x then (1 : Int) else 0) == n
  | .jnum n, .jbool x => n == (if x then (1 : Int) else 0)
  | .jnum a, .jnum b => a == b
  | .jstr a, .jstr b => a == b
  | .jarr as, .jarr bs => pyEqList as bs
  | .jobj as, .jobj bs => pyEqFields as bs
  | _, _ => false
  termination_by structural a _ => a

/-- Python `==` on lists, elementwise. -/
def pyEqList : List JVal → List JVal → Bool
  | [], [] => true
  | a :: as, b :: bs => pyEqVal a b && pyEqList as bs
  | _, _ => false
  termination_by structural as _ => as

/-- Python `==` on dict field lists, elementwise. -/
def pyEqFields : List (String × JVal) → List (String × JVal) → Bool
  | [], [] => true
  | (k1, v1) :: as, (k2, v2) :: bs => k1 == k2 && pyEqVal v1 v2 && pyEqFields as bs
  | _, _ => false
  termination_by structural as _ => as
end

/-- Python `s.startswith(pre)`. -/
def strStartsWith (s pre : String) : Bool := pre.data.isPrefixOf s.data

/-- ASCII whitespace stripping, as in Python `str.strip()` with no
argument (the claims never exercise non-ASCII whitespace). -/
def trimChars (cs : List Char) : List Char :=
  ((cs.dropWhile Char.isWhitespace).reverse.dropWhile Char.isWhitespace).reverse

/-- Decimal value of a digit run. -/
def digitsToNat (cs : List Char) : Nat :=
  cs.foldl (fun acc c => acc * 10 + (c.toNat - Char.toNat '0')) 0

/-- Python `int(s)` for a string: optional surrounding whitespace,
optional sign, then a nonempty digit run; anything else raises
`ValueError` (returned here as `none`).  Underscore digit grouping is
not modelled. -/
def pyIntOfString (s : String) : Option Int :=
  match trimChars s.data with
  | '-' :: core =>
    if !core.isEmpty && core.all Char.isDigit then some (-(digitsToNat core : Int)) else none
  | '+' :: core =>
    if !core.isEmpty && core.all Char.isDigit then some (digitsToNat core : Int) else none
  | core =>
    if !core.isEmpty && core.all Char.isDigit then some (digitsToNat core : Int) else none

/-- Split at the first (leftmost) occurrence of `sep`: the part
before it and the part after it, or `none` when `sep` does not
occur. -/
def splitFirstChars (sep : List Char) : List Char → Option (List Char × List Char)
  | [] => none
  | c :: rest =>
    if sep.isPrefixOf (c :: rest) then some ([], (c :: rest).drop sep.length)
    else
      match splitFirstChars sep rest with
      | some (pre, post) => some (c :: pre, post)
      | none => none

/-- Python `sub in s` for nonempty `sub` (the code only uses the
separator `"> "`). -/
def pyContains (s sub : String) : Bool := (splitFirstChars sub.data s.data).isSome

/-- Python `s.split(sub, 1)[1]`: everything after the first
occurrence of `sub`, assuming `sub` occurs (the code guards the call
with `sub in s`); when it does not occur the whole string is
returned. -/
def pyAfterFirst (s sub : String) : String :=
  match splitFirstChars sub.data s.data with
  | some (_, post) => String.mk post
  | none => s

/-- Python `repr` of a string (quoting; escaping of quotes inside the
string is not modelled, no claim nests quoted strings). -/
def pyStrRepr (s : String) : String := "\u0027" ++ s ++ "\u0027"

mutual
/-- Python `repr` of a JSON value, as used by `str` on containers. -/
def pyRepr : JVal → String
  | .jnull => "None"
  | .jbool true => "True"
  | .jbool false => "False"
  | .jnum n => toString n
  | .jstr s => pyStrRepr s
  | .jarr elems => "[" ++ String.intercalate ", " (pyReprList elems) ++ "]"
  | .jobj fields => "\x7b" ++ String.intercalate ", " (pyReprFields fields) ++ "\x7d"
  termination_by structural v => v

/-- `pyRepr` mapped over a list of values. -/
def pyReprList : List JVal → List String
  | [] => []
  | v :: vs => pyRepr v :: pyReprList vs
  termination_by structural l => l

/-- `pyRepr` of the key/value pairs of a dict. -/
def pyReprFields : List (String × JVal) → List String
  | [] => []
  | (k, v) :: fs => (pyStrRepr k ++ ": " ++ pyRepr v) :: pyReprFields fs
  termination_by structural l => l
end

/-- Python `str` of a JSON value, as interpolated by an f-string:
a string interpolates as itself, everything else as its `repr`. -/
def pyStr : JVal → String
  | .jstr s => s
  | v => pyRepr v

/-- JSON string escaping as performed by `json.dumps` (backslash,
quote and the common control characters; other control characters,
which no claim produces, are not modelled). -/
def jsonEscapeChar (c : Char) : String :=
  if c = '\\' then "\\\\"
  else if c = '"' then "\\\""
  else if c = '\n' then "\\n"
  else if c = '\t' then "\\t"
  else if c = '\r' then "\\r"
  else String.singleton c

/-- `jsonEscapeChar` over a whole string. -/
def jsonEscape (s : String) : String :=
  String.join (s.toList.map jsonEscapeChar)

/-- `json.dumps` of a string: quoted and escaped. -/
def jsonStrDumps (s : String) : String := "\"" ++ jsonEscape s ++ "\""

mutual
/-- Python `json.dumps` with its default separators
(`", "` between items, `": "` between key and value). -/
def jsonDumps : JVal → String
  | .jnull => "null"
  | .jbool true => "true"
  | .jbool false => "false"
  | .jnum n => toString n
  | .jstr s => jsonStrDumps s
  | .jarr elems => "[" ++ String.intercalate ", " (jsonDumpsList elems) ++ "]"
  | .jobj fields => "\x7b" ++ String.intercalate ", " (jsonDumpsFields fields) ++ "\x7d"
  termination_by structural v => v

/-- `jsonDumps` mapped over a list of values. -/
def jsonDumpsList : List JVal → List String
  | [] => []
  | v :: vs => jsonDumps v :: jsonDumpsList vs
  termination_by structural l => l

/-- `jsonDumps` of the key/value pairs of an object. -/
def jsonDumpsFields : List (String × JVal) → List String
  | [] => []
  | (k, v) :: fs => (jsonStrDumps k ++ ": " ++ jsonDumps v) :: jsonDumpsFields fs
  termination_by structural l => l
end

/-- The werkzeug `Response` the handler builds: HTTP status and body
(content type is set but never consulted by any property). -/
structure Resp where
  status : Nat
  body : String
deriving DecidableEq

/-- The inbound request: the two Slack retry headers (raw header
strings, absent = `none`) and the JSON body (`none` models a body
`request.get_json()` fails to parse). -/
structure SlackRequest where
  retryNum : Option String
  retryReason : Option String
  body : Option JVal

/-- The endpoint settings consulted by the handler:
`settings.get("allow_retry")` truthiness, `settings.get("bot_token")`
and `settings["app"]["app_id"]`. -/
structure Settings where
  allowRetry : Bool
  botToken : String
  appId : String
deriving DecidableEq

/-- The keyword arguments of `self.session.app.chat.invoke`. -/
structure ChatArgs where
  appId : String
  query : JVal
  inputs : JVal
  conversationId : String
  responseMode : String
  user : String

/-- One externally visible call made by the handler, with the
arguments it was made with. -/
inductive Effect where
  | fetchReplies (channel ts : JVal)
  | invokeChat (args : ChatArgs)
  | postMessage (channel text threadTs : JVal)

/-- Outcomes of the three opaque collaborator calls, per the SDK
contracts: `conversations_replies` yields its `messages` list or a
`SlackApiError` (message string), the backend chat invocation yields
its response value or raises, each `chat_postMessage` call succeeds or
fails with a `SlackApiError`. -/
structure Env where
  repliesResult : Except String (List JVal)
  chatResult : Except PyExc JVal
  postResult : Except String Unit
  apologyPostResult : Except String Unit

/-- One formatted entry of the thread history built by
`_get_thread_history`: the dict `\x7b"role": role, "content": text\x7d`. -/
structure HistEntry where
  role : String
  content : JVal

/-- The loop body of `_get_thread_history`: walk the fetched
`messages`, skip the message whose `ts` equals the anchor
`thread_ts`, map each other message to its `HistEntry`.  A non-dict
message raises `AttributeError` at `msg.get("ts")` (not caught by the
`except SlackApiError` clause). -/
def histOfMsgs (threadTs : JVal) : List JVal → Except PyExc (List HistEntry)
  | [] => .ok []
  | msg :: rest =>
    match msg with
    | .jobj fields =>
      if pyEqVal (objGetD fields "ts" .jnull) threadTs then
        histOfMsgs threadTs rest
      else
        let role := if pyTruthy (objGetD fields "bot_id" .jnull) then "assistant" else "user"
        let content := objGetD fields "text" (.jstr "")
        match histOfMsgs threadTs rest with
        | .ok h => .ok (⟨role, content⟩ :: h)
        | .error e => .error e
    | _ => .error (.attributeError noGetMsg)

/-- `SlackEndpoint._get_thread_history`: call
`conversations_replies(channel, ts=thread_ts)` (recorded in the
trace), on `SlackApiError` return `[]`, otherwise format the
`messages` list with `histOfMsgs`. -/
def getThreadHistory (env : Env) (channel threadTs : JVal) :
    Except PyExc (List HistEntry) × List Effect :=
  (match env.repliesResult with
   | .error _ => .ok []
   | .ok msgs => histOfMsgs threadTs msgs,
   [.fetchReplies channel threadTs])

/-- Text of the apology message posted on a backend failure. -/
def apologyText : String :=
  "Sorry, I\u0027m having trouble processing your request. Please try again later."

/-- `SlackEndpoint._process_and_respond`.  The outer `try` body
(history fetch, conversation id, backend invocation, reply post with
its inner `except SlackApiError`) is an `Except PyExc Resp`
computation; any exception escaping it lands in the outer
`except Exception` clause, which best-effort posts the apology
(`except SlackApiError: pass`) and answers
`"An error occurred: " ++ str(e)`.  Every branch carries the effect
trace accumulated so far. -/
def processAndRespond (env : Env) (settings : Settings)
    (message channel threadTs : JVal) : Resp × List Effect :=
  let histPart : Except PyExc (List HistEntry) × List Effect :=
    if pyTruthy threadTs then getThreadHistory env channel threadTs
    else (.ok [], [])
  let tryRes : Except PyExc Resp × List Effect :=
    match histPart.1 with
    | .error e => (.error e, histPart.2)
    | .ok _threadHistory =>
      let conversationId := "slack-" ++ pyStr channel ++ "-" ++ pyStr threadTs
      let args : ChatArgs :=
        { appId := settings.appId, query := message, inputs := .jobj [],
          conversationId := conversationId, responseMode := "blocking",
          user := "slack-user" }
      let fx := histPart.2 ++ [.invokeChat args]
      match env.chatResult with
      | .error e => (.error e, fx)
      | .ok resp =>
        match pyGet resp "answer" with
        | .error e => (.error e, fx)
        | .ok answer =>
          let fx2 := fx ++ [.postMessage channel answer threadTs]
          match env.postResult with
          | .ok _ => (.ok ⟨200, "ok"⟩, fx2)
          | .error e => (.ok ⟨200, "Error sending message to Slack: " ++ e⟩, fx2)
  match tryRes with
  | (.ok r, fx) => (r, fx)
  | (.error e, fx) =>
    (⟨200, "An error occurred: " ++ e.str⟩,
     fx ++ [.postMessage channel (.jstr apologyText) threadTs])

/-- The mention-stripping step of `_handle_mention` on a string:
`message.split("> ", 1)[1] if "> " in message else message`, guarded
by `message.startswith("<@")`. -/
def stripBotMention (s : String) : String :=
  if strStartsWith s "<@" then
    if pyContains s "> " then pyAfterFirst s "> " else s
  else s

/-- `SlackEndpoint._handle_mention`: read `text` (default `""`),
strip the leading mention (raising `AttributeError` when `text` is
not a string, as `message.startswith` would), read `channel`
(default `""`) and `thread_ts` (defaulting to the eagerly evaluated
`event.get("ts")`), then delegate to `processAndRespond`. -/
def handleMention (env : Env) (settings : Settings) (event : JVal) :
    Except PyExc Resp × List Effect :=
  match pyGetD event "text" (.jstr "") with
  | .error e => (.error e, [])
  | .ok m =>
    match m with
    | .jstr s =>
      let message : JVal := .jstr (stripBotMention s)
      match pyGetD event "channel" (.jstr "") with
      | .error e => (.error e, [])
      | .ok channel =>
        match pyGet event "ts" with
        | .error e => (.error e, [])
        | .ok tsVal =>
          match pyGetD event "thread_ts" tsVal with
          | .error e => (.error e, [])
          | .ok threadTs =>
            let out := processAndRespond env settings message channel threadTs
            (.ok out.1, out.2)
    | _ => (.error (.attributeError "object has no attribute startswith"), [])

/-- `SlackEndpoint._handle_message`: drop bot messages
(`bot_id` truthy or `subtype == "bot_message"`), require a DM channel
(`channel.startswith("D")`, raising when `channel` is not a string)
or a truthy `thread_ts`, then read `text` (default `""`), resolve the
thread identity (`thread_ts if thread_ts else event.get("ts")`) and
delegate to `processAndRespond`. -/
def handleMessage (env : Env) (settings : Settings) (event : JVal) :
    Except PyExc Resp × List Effect :=
  match pyGet event "bot_id" with
  | .error e => (.error e, [])
  | .ok botId =>
    match pyGet event "subtype" with
    | .error e => (.error e, [])
    | .ok subtype =>
      if pyTruthy botId || pyEqVal subtype (.jstr "bot_message") then
        (.ok ⟨200, "ok"⟩, [])
      else
        match pyGetD event "channel" (.jstr "") with
        | .error e => (.error e, [])
        | .ok channel =>
          match channel with
          | .jstr ch =>
            let isDm := strStartsWith ch "D"
            match pyGet event "thread_ts" with
            | .error e => (.error e, [])
            | .ok threadTs0 =>
              if !isDm && !pyTruthy threadTs0 then (.ok ⟨200, "ok"⟩, [])
              else
                match pyGetD event "text" (.jstr "") with
                | .error e => (.error e, [])
                | .ok message =>
                  match (if pyTruthy threadTs0 then Except.ok threadTs0
                         else pyGet event "ts") with
                  | .error e => (.error e, [])
                  | .ok threadTs =>
                    let out := processAndRespond env settings message channel threadTs
                    (.ok out.1, out.2)
          | _ => (.error (.attributeError "object has no attribute startswith"), [])

/-- The retry-suppression condition at the top of
`SlackEndpoint._invoke`, on the two Slack retry headers, with Python
short-circuit evaluation: `int(retry_num)` is only evaluated when
`allow_retry` is falsy, the reason is not `"http_timeout"` and the
header is present, and raises `ValueError` on a non-numeric header. -/
def retryCheck (req : SlackRequest) (settings : Settings) : Except PyExc Bool :=
  if settings.allowRetry then .ok false
  else if req.retryReason = some "http_timeout" then .ok true
  else
    match req.retryNum with
    | none => .ok false
    | some s =>
      match pyIntOfString s with
      | none => .error (.valueError ("invalid literal for int() with base 10: " ++ s))
      | some n => .ok (decide (0 < n))

/-- `SlackEndpoint._invoke`: retry suppression, JSON body parse
(`get_json` raises `BadRequest` on an unparseable body), the
`url_verification` echo, then dispatch of `event_callback` payloads
on the inner event type. -/
def invoke (req : SlackRequest) (settings : Settings) (env : Env) :
    Except PyExc Resp × List Effect :=
  match retryCheck req settings with
  | .error e => (.error e, [])
  | .ok true => (.ok ⟨200, "ok"⟩, [])
  | .ok false =>
    match req.body with
    | none => (.error (.badRequest "Failed to decode JSON object"), [])
    | some data =>
      match pyGet data "type" with
      | .error e => (.error e, [])
      | .ok dtype =>
        if pyEqVal dtype (.jstr "url_verification") then
          match pyGet data "challenge" with
          | .error e => (.error e, [])
          | .ok challenge =>
            (.ok ⟨200, jsonDumps (.jobj [("challenge", challenge)])⟩, [])
        else if pyEqVal dtype (.jstr "event_callback") then
          match pyGet data "event" with
          | .error e => (.error e, [])
          | .ok event =>
            match pyGet event "type" with
            | .error e => (.error e, [])
            | .ok etype =>
              if pyEqVal etype (.jstr "app_mention") then
                handleMention env settings event
              else if pyEqVal etype (.jstr "message") then
                handleMessage env settings event
              else (.ok ⟨200, "ok"⟩, [])
        else (.ok ⟨200, "ok"⟩, [])

/-- An `event_callback` request carrying the given inner event, with
no retry headers. -/
def mkEventReq (event : JVal) : SlackRequest :=
  { retryNum := none, retryReason := none,
    body := some (.jobj [("type", .jstr "event_callback"), ("event", event)]) }

/-- Is a value a JSON object (a Python dict)? -/
def isJObj : JVal → Bool
  | .jobj _ => true
  | _ => false

/-- The environment behaves per the Slack API contract: when the
replies fetch succeeds, every returned message is a dict. -/
def envWFb (env : Env) : Bool :=
  match env.repliesResult with
  | .error _ => true
  | .ok msgs => msgs.all isJObj

/-- The chat-invocation arguments `_process_and_respond` always
builds for a given message, channel and thread identity. -/
def mainArgs (settings : Settings) (message channel threadTs : JVal) : ChatArgs :=
  { appId := settings.appId, query := message, inputs := .jobj [],
    conversationId := "slack-" ++ pyStr channel ++ "-" ++ pyStr threadTs,
    responseMode := "blocking", user := "slack-user" }

/-- The chat invocations (with their arguments) recorded in a trace. -/
def invokesOf (fx : List Effect) : List ChatArgs :=
  fx.filterMap fun e =>
    match e with
    | .invokeChat a => some a
    | _ => none

/-- Formulation following the spec: the thread identity (`ts` field)
of a fetched reply (replies are dicts per the platform contract). -/
def specMsgTs : JVal → JVal
  | .jobj fields => objGetD fields "ts" .jnull
  | _ => .jnull

/-- Formulation following the spec: the `(role, content)` pair a
fetched reply is mapped to — role `"assistant"` when the reply
carries a bot identifier, `"user"` otherwise, content its text. -/
def specMsgEntry : JVal → HistEntry
  | .jobj fields =>
    { role := if pyTruthy (objGetD fields "bot_id" .jnull) then "assistant" else "user",
      content := objGetD fields "text" (.jstr "") }
  | _ => { role := "user", content := .jstr "" }

/-- The thread identity `_handle_mention` resolves (line 61):
`event.get("thread_ts", event.get("ts"))`. -/
def mentionThreadTs (fields : List (String × JVal)) : JVal :=
  objGetD fields "thread_ts" (objGetD fields "ts" .jnull)

/-- The thread identity `_handle_message` resolves (lines 78 and 85):
`thread_ts if thread_ts else event.get("ts")`. -/
def msgThreadTs (fields : List (String × JVal)) : JVal :=
  if pyTruthy (objGetD fields "thread_ts" .jnull) then objGetD fields "thread_ts" .jnull
  else objGetD fields "ts" .jnull

/-- An environment whose backend invocation raises, and whose apology
post also fails (with a `SlackApiError`). -/
def failEnv : Env :=
  { repliesResult := .ok [], chatResult := .error (.exc "backend down"),
    postResult := .ok (), apologyPostResult := .error "slack down" }

/-- An environment with a three-message thread history: the anchor,
a bot reply and a user reply. -/
def histEnv : Env :=
  { repliesResult := .ok
      [.jobj [("ts", .jstr "1.0"), ("text", .jstr "anchor")],
       .jobj [("ts", .jstr "1.1"), ("text", .jstr "reply"), ("bot_id", .jstr "B1")],
       .jobj [("ts", .jstr "1.2"), ("text", .jstr "later")]],
    chatResult := .ok (.jobj [("answer", .jstr "hi")]),
    postResult := .ok (), apologyPostResult := .ok () }

/-- A benign environment for concrete runs: empty thread history,
a backend answer, successful posts. -/
def okEnv : Env :=
  { repliesResult := .ok [], chatResult := .ok (.jobj [("answer", .jstr "hi")]),
    postResult := .ok (), apologyPostResult := .ok () }

/-- Concrete settings for concrete runs: retries not allowed. -/
def baseSettings : Settings :=
  { allowRetry := false, botToken := "xoxb-token", appId := "app-1" }

theorem pyGet_jobj (fields : List (String × JVal)) (key : String) :
    pyGet (.jobj fields) key = .ok (objGetD fields key .jnull) := rfl

theorem pyGetD_jobj (fields : List (String × JVal)) (key : String) (dflt : JVal) :
    pyGetD (.jobj fields) key dflt = .ok (objGetD fields key dflt) := rfl

/-- On a well-formed reply list (every message a dict), the history
loop succeeds and computes exactly the spec formulation: drop the
anchor, map the rest. -/
theorem histOfMsgs_of_wf (threadTs : JVal) :
    ∀ msgs : List JVal, (∀ m ∈ msgs, isJObj m = true) →
      histOfMsgs threadTs msgs =
        .ok ((msgs.filter fun m => !pyEqVal (specMsgTs m) threadTs).map specMsgEntry)
  | [], _ => rfl
  | msg :: rest, h => by
    have hrest := histOfMsgs_of_wf threadTs rest (fun m hm => h m (List.mem_cons_of_mem _ hm))
    have hmsg := h msg (List.mem_cons_self _ _)
    cases msg with
    | jobj fields =>
      by_cases hts : pyEqVal (objGetD fields "ts" .jnull) threadTs = true
      · simp [histOfMsgs, hts, hrest, specMsgTs, List.filter]
      · simp at hts
        simp [histOfMsgs, hts, hrest, specMsgTs, specMsgEntry, List.filter]
    | jnull => simp [isJObj] at hmsg
    | jbool b => simp [isJObj] at hmsg
    | jnum n => simp [isJObj] at hmsg
    | jstr s => simp [isJObj] at hmsg
    | jarr elems => simp [isJObj] at hmsg

/-- Membership in the extracted chat-invocation list is membership of
the corresponding effect in the trace. -/
theorem mem_invokesOf (a : ChatArgs) (fx : List Effect) :
    a ∈ invokesOf fx ↔ Effect.invokeChat a ∈ fx := by
  unfold invokesOf
  rw [List.mem_filterMap]
  constructor
  · rintro ⟨e, he, hm⟩
    cases e <;> simp_all
  · intro h
    exact ⟨Effect.invokeChat a, h, rfl⟩

theorem getThreadHistory_snd (env : Env) (c t : JVal) :
    (getThreadHistory env c t).2 = [.fetchReplies c t] := rfl

/-- In a well-formed environment the history helper never raises. -/
theorem envWF_hist (env : Env) (c t : JVal) (henv : envWFb env = true) :
    ∃ h, (getThreadHistory env c t).1 = .ok h := by
  unfold envWFb at henv
  unfold getThreadHistory
  cases hr : env.repliesResult with
  | error e => simp [hr]
  | ok msgs =>
    rw [hr] at henv
    simp only [hr]
    exact ⟨_, histOfMsgs_of_wf t msgs (by simpa [List.all_eq_true, isJObj] using henv)⟩

/-- In a well-formed environment, `_process_and_respond` invokes the
backend exactly once, with the arguments built from the message, the
channel and the thread identity. -/
theorem processAndRespond_invokesOf (env : Env) (settings : Settings) (m c t : JVal)
    (henv : envWFb env = true) :
    invokesOf (processAndRespond env settings m c t).2 = [mainArgs settings m c t] := by
  obtain ⟨h, hh⟩ := envWF_hist env c t henv
  unfold processAndRespond
  by_cases ht : pyTruthy t = true
  · simp only [ht, if_true, hh, getThreadHistory_snd]
    cases hc : env.chatResult with
    | error e => simp [invokesOf, mainArgs]
    | ok resp =>
      cases hpg : pyGet resp "answer" with
      | error e => simp [hpg, invokesOf, mainArgs]
      | ok answer =>
        cases hp : env.postResult with
        | error e => simp [hpg, hp, invokesOf, mainArgs]
        | ok u => simp [hpg, hp, invokesOf, mainArgs]
  · simp only [Bool.not_eq_true] at ht
    simp only [ht, if_false]
    cases hc : env.chatResult with
    | error e => simp [invokesOf, mainArgs]
    | ok resp =>
      cases hpg : pyGet resp "answer" with
      | error e => simp [hpg, invokesOf, mainArgs]
      | ok answer =>
        cases hp : env.postResult with
        | error e => simp [hpg, hp, invokesOf, mainArgs]
        | ok u => simp [hpg, hp, invokesOf, mainArgs]

/-- When the thread identity is falsy, no history is fetched and the
backend is still invoked exactly once (for any environment). -/
theorem processAndRespond_invokesOf_of_not_truthy (env : Env) (settings : Settings)
    (m c t : JVal) (ht : pyTruthy t = false) :
    invokesOf (processAndRespond env settings m c t).2 = [mainArgs settings m c t] := by
  unfold processAndRespond
  simp only [ht, if_false, Bool.false_eq_true]
  cases hc : env.chatResult with
  | error e => simp [invokesOf, mainArgs]
  | ok resp =>
    cases hpg : pyGet resp "answer" with
    | error e => simp [hpg, invokesOf, mainArgs]
    | ok answer =>
      cases hp : env.postResult with
      | error e => simp [hpg, hp, invokesOf, mainArgs]
      | ok u => simp [hpg, hp, invokesOf, mainArgs]

/-- When the thread identity is falsy, the trace contains no
`conversations_replies` call. -/
theorem processAndRespond_no_fetch_of_not_truthy (env : Env) (settings : Settings)
    (m c t : JVal) (ht : pyTruthy t = false) (c2 t2 : JVal) :
    Effect.fetchReplies c2 t2 ∉ (processAndRespond env settings m c t).2 := by
  unfold processAndRespond
  simp only [ht, if_false, Bool.false_eq_true]
  cases hc : env.chatResult with
  | error e => simp
  | ok resp =>
    cases hpg : pyGet resp "answer" with
    | error e => simp [hpg]
    | ok answer =>
      cases hp : env.postResult with
      | error e => simp [hpg, hp]
      | ok u => simp [hpg, hp]

/-- In a well-formed environment, the chat invocation with the main
arguments appears in the trace. -/
theorem processAndRespond_invoke_mem (env : Env) (settings : Settings) (m c t : JVal)
    (henv : envWFb env = true) :
    Effect.invokeChat (mainArgs settings m c t) ∈ (processAndRespond env settings m c t).2 := by
  refine (mem_invokesOf _ _).mp ?_
  rw [processAndRespond_invokesOf env settings m c t henv]
  exact List.mem_singleton_self _

/-- Every response `_process_and_respond` builds carries HTTP 200. -/
theorem processAndRespond_status (env : Env) (settings : Settings) (m c t : JVal) :
    (processAndRespond env settings m c t).1.status = 200 := by
  unfold processAndRespond
  by_cases ht : pyTruthy t = true
  · simp only [ht, if_true]
    cases hgh : (getThreadHistory env c t).1 with
    | error e => simp [hgh]
    | ok hist =>
      simp only [hgh]
      cases hc : env.chatResult with
      | error e => simp
      | ok resp =>
        cases hpg : pyGet resp "answer" with
        | error e => simp [hpg]
        | ok answer =>
          cases hp : env.postResult with
          | error e => simp [hpg, hp]
          | ok u => simp [hpg, hp]
  · simp only [Bool.not_eq_true] at ht
    simp only [ht, if_false, Bool.false_eq_true]
    cases hc : env.chatResult with
    | error e => simp
    | ok resp =>
      cases hpg : pyGet resp "answer" with
      | error e => simp [hpg]
      | ok answer =>
        cases hp : env.postResult with
        | error e => simp [hpg, hp]
        | ok u => simp [hpg, hp]

/-- Every successful response of `_handle_mention` carries HTTP 200. -/
theorem handleMention_ok_status (env : Env) (settings : Settings) (event : JVal) (r : Resp) :
    (handleMention env settings event).1 = .ok r → r.status = 200 := by
  unfold handleMention
  cases h1 : pyGetD event "text" (.jstr "") with
  | error e => simp
  | ok m =>
    cases m with
    | jstr s =>
      cases h2 : pyGetD event "channel" (.jstr "") with
      | error e => simp
      | ok channel =>
        cases h3 : pyGet event "ts" with
        | error e => simp
        | ok tsVal =>
          cases h4 : pyGetD event "thread_ts" tsVal with
          | error e => simp [h4]
          | ok threadTs =>
            simp only [h4]
            intro h
            simp only [Except.ok.injEq] at h
            exact h ▸ processAndRespond_status env settings (.jstr (stripBotMention s)) channel threadTs
    | jnull => simp
    | jbool b => simp
    | jnum n => simp
    | jarr elems => simp
    | jobj fields => simp

/-- Every successful response of `_handle_message` carries HTTP 200. -/
theorem handleMessage_ok_status (env : Env) (settings : Settings) (event : JVal) (r : Resp) :
    (handleMessage env settings event).1 = .ok r → r.status = 200 := by
  unfold handleMessage
  cases h1 : pyGet event "bot_id" with
  | error e => simp
  | ok botId =>
    cases h2 : pyGet event "subtype" with
    | error e => simp
    | ok subtype =>
      by_cases hbot : (pyTruthy botId || pyEqVal subtype (.jstr "bot_message")) = true
      · simp only [hbot, if_true]
        intro h
        simp only [Except.ok.injEq] at h
        simp [← h]
      · simp only [Bool.not_eq_true] at hbot
        simp only [hbot, Bool.false_eq_true, if_false]
        cases h3 : pyGetD event "channel" (.jstr "") with
        | error e => simp
        | ok channel =>
          cases channel with
          | jstr ch =>
            cases h4 : pyGet event "thread_ts" with
            | error e => simp
            | ok threadTs0 =>
              by_cases hdm : (!strStartsWith ch "D" && !pyTruthy threadTs0) = true
              · simp only [hdm, if_true]
                intro h
                simp only [Except.ok.injEq] at h
                simp [← h]
              · simp only [Bool.not_eq_true] at hdm
                simp only [hdm, Bool.false_eq_true, if_false]
                cases h5 : pyGetD event "text" (.jstr "") with
                | error e => simp
                | ok message =>
                  cases h6 : (if pyTruthy threadTs0 then Except.ok threadTs0
                              else pyGet event "ts") with
                  | error e => simp [h6]
                  | ok threadTs =>
                    simp only [h6]
                    intro h
                    simp only [Except.ok.injEq] at h
                    exact h ▸ processAndRespond_status env settings message (.jstr ch) threadTs
          | jnull => simp
          | jbool b => simp
          | jnum n => simp
          | jarr elems => simp
          | jobj fields => simp

/-- Every successful response of `_invoke` carries HTTP 200. -/
theorem invoke_ok_status (req : SlackRequest) (settings : Settings) (env : Env) (r : Resp) :
    (invoke req settings env).1 = .ok r → r.status = 200 := by
  intro h
  unfold invoke at h
  repeat' split at h
  all_goals
    first
      | exact handleMention_ok_status _ _ _ r h
      | exact handleMessage_ok_status _ _ _ r h
      | (simp at h; subst h; rfl)
      | simp at h

/-- C1 counterexample: a request whose `X-Slack-Retry-Reason` header
is literally `"timeout"` (not `"http_timeout"`), with no retry-count
header and `allow_retry` false, is NOT suppressed: the handler goes
on to classify the payload and answers the `url_verification`
challenge instead of the body `"ok"` the claim requires. -/
theorem c1_counterexample :
    (invoke { retryNum := none, retryReason := some "timeout",
              body := some (.jobj [("type", .jstr "url_verification"),
                                   ("challenge", .jstr "abc")]) }
       baseSettings okEnv).1
      = .ok { status := 200, body := "\x7b\"challenge\": \"abc\"\x7d" } ∧
    "\x7b\"challenge\": \"abc\"\x7d" ≠ "ok" := by
  exact ⟨rfl, by decide⟩

/-- C1 (amended): for every inbound request whose headers carry a
retry-reason of `"http_timeout"` or a retry-count greater than zero,
when the `allow_retry` setting is false or absent, the handler
returns status 200 with body `"ok"` and performs no further work:
no backend invocation, no platform call, no payload
classification. -/
theorem c1_retry_suppressed (req : SlackRequest) (settings : Settings) (env : Env)
    (hallow : settings.allowRetry = false)
    (hretry : req.retryReason = some "http_timeout" ∨
      ∃ s n, req.retryNum = some s ∧ pyIntOfString s = some n ∧ 0 < n) :
    invoke req settings env = (.ok { status := 200, body := "ok" }, []) := by
  unfold invoke
  have hrc : retryCheck req settings = .ok true := by
    unfold retryCheck
    rcases hretry with h | ⟨s, n, hs, hn, hpos⟩
    · simp [hallow, h]
    · by_cases hr : req.retryReason = some "http_timeout"
      · simp [hallow, hr]
      · simp [hallow, hr, hs, hn, hpos]
  simp [hrc]

/-- C1 witness: a request with retry-count header `"2"` is suppressed
under the base settings. -/
theorem c1_witness :
    baseSettings.allowRetry = false ∧
    invoke { retryNum := some "2", retryReason := none, body := some (.jobj []) }
      baseSettings okEnv
      = (.ok { status := 200, body := "ok" }, []) :=
  ⟨rfl, c1_retry_suppressed _ _ _ rfl (Or.inr ⟨"2", 2, rfl, rfl, by decide⟩)⟩

/-- C4: for every payload whose JSON object carries
`type = url_verification`, whatever else it contains and whatever
the environment would answer, the handler returns status 200 with
body exactly the JSON dump of `\x7b"challenge": <the payload token>\x7d`,
performs no platform or backend call, and this branch short-circuits
before any other classification. -/
theorem c4_url_verification_echo (fields : List (String × JVal))
    (settings : Settings) (env : Env) (tok : JVal)
    (htype : objGetD fields "type" .jnull = .jstr "url_verification")
    (htok : objGetD fields "challenge" .jnull = tok) :
    invoke { retryNum := none, retryReason := none, body := some (.jobj fields) }
      settings env
      = (.ok { status := 200, body := jsonDumps (.jobj [("challenge", tok)]) }, []) := by
  unfold invoke
  have hrc : retryCheck ⟨none, none, some (.jobj fields)⟩ settings = .ok false := by
    unfold retryCheck
    cases hs : settings.allowRetry <;> simp [hs]
  simp [hrc, pyGet, htype, htok, pyEqVal]

/-- C4 witness: the concrete challenge `"abc"` is echoed back. -/
theorem c4_witness :
    objGetD [("type", .jstr "url_verification"), ("challenge", .jstr "abc")]
        "type" .jnull = .jstr "url_verification" ∧
    invoke { retryNum := none, retryReason := none,
             body := some (.jobj [("type", .jstr "url_verification"),
                                  ("challenge", .jstr "abc")]) }
      baseSettings okEnv
      = (.ok { status := 200, body := "\x7b\"challenge\": \"abc\"\x7d" }, []) := by
  refine ⟨rfl, ?_⟩
  rw [c4_url_verification_echo [("type", .jstr "url_verification"), ("challenge", .jstr "abc")]
        baseSettings okEnv (.jstr "abc") rfl rfl]
  rfl

/-- C5 counterexample: an `event_callback` payload carrying no
`event` object makes `event.get("type")` raise `AttributeError`
(`event` is `None`), so the handler terminates with an unhandled
exception rather than a 200 response, refuting the claim for
arbitrary payload shapes. -/
theorem c5_counterexample :
    (invoke { retryNum := none, retryReason := none,
              body := some (.jobj [("type", .jstr "event_callback")]) }
       baseSettings okEnv).1
      = .error (.attributeError noGetMsg) := by rfl

/-- C5 (amended): whenever the handler does return a response — for
every request, settings and environment — that response carries HTTP
status 200; the original claim that it also never raises fails on
malformed inputs (see the counterexample). -/
theorem c5_returned_status_always_200 (req : SlackRequest) (settings : Settings)
    (env : Env) (r : Resp) :
    (invoke req settings env).1 = .ok r → r.status = 200 :=
  invoke_ok_status req settings env r

/-- C5 witness: a concrete benign run returns a response, and that
response has status 200. -/
theorem c5_witness :
    (invoke { retryNum := none, retryReason := none,
              body := some (.jobj [("type", .jstr "unrelated")]) }
       baseSettings okEnv).1 = .ok { status := 200, body := "ok" } ∧
    Resp.status { status := 200, body := "ok" } = 200 :=
  ⟨rfl, c5_returned_status_always_200
    { retryNum := none, retryReason := none,
      body := some (.jobj [("type", .jstr "unrelated")]) }
    baseSettings okEnv { status := 200, body := "ok" } rfl⟩

/-- Whatever the environment does, `_process_and_respond` either
never reaches the backend call (a history failure) or invokes it
exactly once with the main arguments. -/
theorem processAndRespond_invokesOf_cases (env : Env) (settings : Settings) (m c t : JVal) :
    invokesOf (processAndRespond env settings m c t).2 = [] ∨
    invokesOf (processAndRespond env settings m c t).2 = [mainArgs settings m c t] := by
  by_cases ht : pyTruthy t = true
  · cases hgh : (getThreadHistory env c t).1 with
    | error e =>
      left
      unfold processAndRespond
      simp only [ht, if_true, hgh, getThreadHistory_snd]
      simp [invokesOf]
    | ok hist =>
      right
      unfold processAndRespond
      simp only [ht, if_true, hgh, getThreadHistory_snd]
      cases hc : env.chatResult with
      | error e => simp [invokesOf, mainArgs]
      | ok resp =>
        cases hpg : pyGet resp "answer" with
        | error e => simp [hpg, invokesOf, mainArgs]
        | ok answer =>
          cases hp : env.postResult with
          | error e => simp [hpg, hp, invokesOf, mainArgs]
          | ok u => simp [hpg, hp, invokesOf, mainArgs]
  · right
    simp only [Bool.not_eq_true] at ht
    exact processAndRespond_invokesOf_of_not_truthy env settings m c t ht

/-- Any chat invocation `_process_and_respond` traces carries the
main arguments. -/
theorem processAndRespond_invoke_unique (env : Env) (settings : Settings) (m c t : JVal)
    (a : ChatArgs) :
    Effect.invokeChat a ∈ (processAndRespond env settings m c t).2 →
      a = mainArgs settings m c t := by
  intro hmem
  have h := (mem_invokesOf a _).mpr hmem
  rcases processAndRespond_invokesOf_cases env settings m c t with hc | hc
  · rw [hc] at h
    exact absurd h (List.not_mem_nil a)
  · rw [hc] at h
    simpa using h

/-- An `event_callback` request with no retry headers reaches the
event dispatch of `_invoke` untouched. -/
theorem invoke_mkEventReq_dispatch (fs : List (String × JVal)) (settings : Settings)
    (env : Env) :
    invoke (mkEventReq (.jobj fs)) settings env
      = (if pyEqVal (objGetD fs "type" .jnull) (.jstr "app_mention") = true then
           handleMention env settings (.jobj fs)
         else if pyEqVal (objGetD fs "type" .jnull) (.jstr "message") = true then
           handleMessage env settings (.jobj fs)
         else (.ok { status := 200, body := "ok" }, [])) := by
  unfold invoke mkEventReq
  have hrc : retryCheck ⟨none, none,
      some (.jobj [("type", .jstr "event_callback"), ("event", .jobj fs)])⟩ settings
      = .ok false := by
    unfold retryCheck
    cases hs : settings.allowRetry <;> simp [hs]
  simp [hrc, pyGet, objGetD, objLookup, pyEqVal]

/-- `_handle_mention` on an event dict whose `text` is the string `s`
runs `_process_and_respond` on the stripped text, the channel and the
mention thread identity. -/
theorem handleMention_run (fs : List (String × JVal)) (env : Env) (settings : Settings)
    (s : String) (htext : objGetD fs "text" (.jstr "") = .jstr s) :
    handleMention env settings (.jobj fs)
      = (.ok (processAndRespond env settings (.jstr (stripBotMention s))
               (objGetD fs "channel" (.jstr "")) (mentionThreadTs fs)).1,
         (processAndRespond env settings (.jstr (stripBotMention s))
               (objGetD fs "channel" (.jstr "")) (mentionThreadTs fs)).2) := by
  unfold handleMention mentionThreadTs
  simp [pyGetD_jobj, pyGet_jobj, htext]

/-- Any chat invocation reachable from `_handle_mention` on an event
dict carries the main arguments built from the stripped text, the
channel and the mention thread identity. -/
theorem handleMention_invoke_unique (fs : List (String × JVal)) (env : Env)
    (settings : Settings) (a : ChatArgs) :
    Effect.invokeChat a ∈ (handleMention env settings (.jobj fs)).2 →
      ∃ s, objGetD fs "text" (.jstr "") = .jstr s ∧
        a = mainArgs settings (.jstr (stripBotMention s))
              (objGetD fs "channel" (.jstr "")) (mentionThreadTs fs) := by
  intro hmem
  cases htext : objGetD fs "text" (.jstr "") with
  | jstr s =>
    rw [handleMention_run fs env settings s htext] at hmem
    exact ⟨s, rfl, processAndRespond_invoke_unique env settings _ _ _ a hmem⟩
  | jnull =>
    unfold handleMention at hmem
    simp [pyGetD_jobj, htext] at hmem
  | jbool b =>
    unfold handleMention at hmem
    simp [pyGetD_jobj, htext] at hmem
  | jnum n =>
    unfold handleMention at hmem
    simp [pyGetD_jobj, htext] at hmem
  | jarr elems =>
    unfold handleMention at hmem
    simp [pyGetD_jobj, htext] at hmem
  | jobj fields =>
    unfold handleMention at hmem
    simp [pyGetD_jobj, htext] at hmem

/-- `_handle_message` drops bot messages silently. -/
theorem handleMessage_skip_bot (fs : List (String × JVal)) (env : Env) (settings : Settings)
    (hbot : (pyTruthy (objGetD fs "bot_id" .jnull)
        || pyEqVal (objGetD fs "subtype" .jnull) (.jstr "bot_message")) = true) :
    handleMessage env settings (.jobj fs) = (.ok { status := 200, body := "ok" }, []) := by
  unfold handleMessage
  simp [pyGet_jobj, hbot]

/-- `_handle_message` drops non-DM, non-thread messages silently. -/
theorem handleMessage_skip_channel (fs : List (String × JVal)) (env : Env)
    (settings : Settings) (ch : String)
    (hch : objGetD fs "channel" (.jstr "") = .jstr ch)
    (hbot : (pyTruthy (objGetD fs "bot_id" .jnull)
        || pyEqVal (objGetD fs "subtype" .jnull) (.jstr "bot_message")) = false)
    (hdm : strStartsWith ch "D" = false)
    (hth : pyTruthy (objGetD fs "thread_ts" .jnull) = false) :
    handleMessage env settings (.jobj fs) = (.ok { status := 200, body := "ok" }, []) := by
  unfold handleMessage
  simp [pyGet_jobj, pyGetD_jobj, hbot, hch, hdm, hth]

/-- `_handle_message` on an eligible event (not from a bot, DM
channel or truthy `thread_ts`) runs `_process_and_respond` on the
text, the channel and the message thread identity. -/
theorem handleMessage_run (fs : List (String × JVal)) (env : Env) (settings : Settings)
    (ch : String)
    (hch : objGetD fs "channel" (.jstr "") = .jstr ch)
    (hbot : (pyTruthy (objGetD fs "bot_id" .jnull)
        || pyEqVal (objGetD fs "subtype" .jnull) (.jstr "bot_message")) = false)
    (helig : strStartsWith ch "D" = true ∨ pyTruthy (objGetD fs "thread_ts" .jnull) = true) :
    handleMessage env settings (.jobj fs)
      = (.ok (processAndRespond env settings (objGetD fs "text" (.jstr ""))
               (.jstr ch) (msgThreadTs fs)).1,
         (processAndRespond env settings (objGetD fs "text" (.jstr ""))
               (.jstr ch) (msgThreadTs fs)).2) := by
  unfold handleMessage msgThreadTs
  have hgate : (!strStartsWith ch "D" && !pyTruthy (objGetD fs "thread_ts" .jnull)) = false := by
    rcases helig with h | h <;> simp [h]
  by_cases hth : pyTruthy (objGetD fs "thread_ts" .jnull) = true
  · simp [pyGet_jobj, pyGetD_jobj, hbot, hch, hgate, hth]
  · simp only [Bool.not_eq_true] at hth
    have hdm : strStartsWith ch "D" = true := by
      rcases helig with h | h
      · exact h
      · simp [hth] at h
    simp [pyGet_jobj, pyGetD_jobj, hbot, hch, hdm, hth]

/-- Any chat invocation reachable from `_handle_message` on an event
dict carries the main arguments built from the text, the channel and
the message thread identity. -/
theorem handleMessage_invoke_unique (fs : List (String × JVal)) (env : Env)
    (settings : Settings) (ch : String) (a : ChatArgs)
    (hch : objGetD fs "channel" (.jstr "") = .jstr ch) :
    Effect.invokeChat a ∈ (handleMessage env settings (.jobj fs)).2 →
      a = mainArgs settings (objGetD fs "text" (.jstr "")) (.jstr ch) (msgThreadTs fs) := by
  intro hmem
  by_cases hbot : (pyTruthy (objGetD fs "bot_id" .jnull)
      || pyEqVal (objGetD fs "subtype" .jnull) (.jstr "bot_message")) = true
  · rw [handleMessage_skip_bot fs env settings hbot] at hmem
    simp at hmem
  · simp only [Bool.not_eq_true] at hbot
    by_cases hdm : strStartsWith ch "D" = true
    · rw [handleMessage_run fs env settings ch hch hbot (Or.inl hdm)] at hmem
      exact processAndRespond_invoke_unique env settings _ _ _ a hmem
    · simp only [Bool.not_eq_true] at hdm
      by_cases hth : pyTruthy (objGetD fs "thread_ts" .jnull) = true
      · rw [handleMessage_run fs env settings ch hch hbot (Or.inr hth)] at hmem
        exact processAndRespond_invoke_unique env settings _ _ _ a hmem
      · simp only [Bool.not_eq_true] at hth
        rw [handleMessage_skip_channel fs env settings ch hch hbot hdm hth] at hmem
        simp at hmem

/-- C7: the thread-history helper, given a channel and a thread
identity, on a platform-API error returns the empty list instead of
propagating an exception; on a successful fetch (replies are dicts,
per the platform contract) it returns the replies mapped to
role/content pairs — role `"assistant"` when the reply carries a bot
identifier and `"user"` otherwise, content the reply text — excluding
every message whose timestamp equals the thread identity. -/
theorem c7_thread_history (env : Env) (channel threadTs : JVal)
    (msgs : List JVal) (emsg : String) :
    (env.repliesResult = .error emsg →
      (getThreadHistory env channel threadTs).1 = .ok []) ∧
    (env.repliesResult = .ok msgs → (∀ m ∈ msgs, isJObj m = true) →
      (getThreadHistory env channel threadTs).1 =
        .ok ((msgs.filter fun m => !pyEqVal (specMsgTs m) threadTs).map specMsgEntry)) := by
  constructor
  · intro h
    unfold getThreadHistory
    simp [h]
  · intro h hwf
    unfold getThreadHistory
    simp [h, histOfMsgs_of_wf threadTs msgs hwf]

/-- C7 witness: a three-message thread (anchor `1.0`, a bot reply, a
user reply) yields the two non-anchor replies with their roles, and
an erroring fetch yields the empty history. -/
theorem c7_witness :
    histEnv.repliesResult = .ok
      [.jobj [("ts", .jstr "1.0"), ("text", .jstr "anchor")],
       .jobj [("ts", .jstr "1.1"), ("text", .jstr "reply"), ("bot_id", .jstr "B1")],
       .jobj [("ts", .jstr "1.2"), ("text", .jstr "later")]] ∧
    (getThreadHistory histEnv (.jstr "D9") (.jstr "1.0")).1
      = .ok [{ role := "assistant", content := .jstr "reply" },
             { role := "user", content := .jstr "later" }] := by
  refine ⟨rfl, ?_⟩
  have h := (c7_thread_history histEnv (.jstr "D9") (.jstr "1.0")
      [.jobj [("ts", .jstr "1.0"), ("text", .jstr "anchor")],
       .jobj [("ts", .jstr "1.1"), ("text", .jstr "reply"), ("bot_id", .jstr "B1")],
       .jobj [("ts", .jstr "1.2"), ("text", .jstr "later")]] "unused").2 rfl (by decide)
  rw [h]
  rfl

/-- C8: for every eligible event (processed by
`_process_and_respond`), when the backend chat invocation raises any
exception, the handler returns HTTP 200 with the plain-text error
body `"An error occurred: " ++ str(e)`, after posting (best-effort)
the apology message to the originating channel threaded under the
thread identity; a failure of that apology post is silently swallowed
(the environment's apology-post outcome is arbitrary). -/
theorem c8_backend_error_handling (env : Env) (settings : Settings)
    (message channel threadTs : JVal) (e : PyExc)
    (henv : envWFb env = true) (hchat : env.chatResult = .error e) :
    (processAndRespond env settings message channel threadTs).1
      = { status := 200, body := "An error occurred: " ++ e.str } ∧
    Effect.postMessage channel (.jstr apologyText) threadTs
      ∈ (processAndRespond env settings message channel threadTs).2 := by
  unfold processAndRespond
  by_cases ht : pyTruthy threadTs = true
  · obtain ⟨h, hh⟩ := envWF_hist env channel threadTs henv
    simp only [ht, if_true, hh, getThreadHistory_snd, hchat]
    simp
  · simp only [Bool.not_eq_true] at ht
    simp only [ht, Bool.false_eq_true, if_false, hchat]
    simp

/-- C8 witness: a backend failure `"backend down"` with a failing
apology post still yields the 200 error body and the attempted
apology post in the trace. -/
theorem c8_witness :
    envWFb failEnv = true ∧ failEnv.chatResult = .error (.exc "backend down") ∧
    (processAndRespond failEnv baseSettings (.jstr "hi") (.jstr "D1") (.jstr "1.1")).1
      = { status := 200, body := "An error occurred: backend down" } ∧
    Effect.postMessage (.jstr "D1") (.jstr apologyText) (.jstr "1.1")
      ∈ (processAndRespond failEnv baseSettings (.jstr "hi") (.jstr "D1") (.jstr "1.1")).2 := by
  refine ⟨rfl, rfl, ?_, ?_⟩
  · exact (c8_backend_error_handling failEnv baseSettings (.jstr "hi") (.jstr "D1")
      (.jstr "1.1") (.exc "backend down") rfl rfl).1
  · exact (c8_backend_error_handling failEnv baseSettings (.jstr "hi") (.jstr "D1")
      (.jstr "1.1") (.exc "backend down") rfl rfl).2

/-- C9: the backend chat invocation arguments are independent of the
history-fetch outcome: for any two well-formed environments — which
may differ arbitrarily, in particular in the fetched thread history —
the chat invocations traced by `_process_and_respond` are identical,
namely exactly one call with the main arguments (app id, query,
empty inputs, conversation id, blocking mode, fixed user), in which
the fetched history appears in no field. -/
theorem c9_history_not_passed_to_backend (env1 env2 : Env) (settings : Settings)
    (m c t : JVal) (h1 : envWFb env1 = true) (h2 : envWFb env2 = true) :
    invokesOf (processAndRespond env1 settings m c t).2
      = invokesOf (processAndRespond env2 settings m c t).2 ∧
    invokesOf (processAndRespond env1 settings m c t).2 = [mainArgs settings m c t] :=
  ⟨(processAndRespond_invokesOf env1 settings m c t h1).trans
      (processAndRespond_invokesOf env2 settings m c t h2).symm,
   processAndRespond_invokesOf env1 settings m c t h1⟩

/-- C9 witness: an empty history and a three-message history produce
the same single backend invocation. -/
theorem c9_witness :
    envWFb okEnv = true ∧ envWFb histEnv = true ∧
    invokesOf (processAndRespond okEnv baseSettings (.jstr "q") (.jstr "D1") (.jstr "1.1")).2
      = invokesOf (processAndRespond histEnv baseSettings (.jstr "q") (.jstr "D1") (.jstr "1.1")).2 :=
  ⟨rfl, rfl,
   (c9_history_not_passed_to_backend okEnv histEnv baseSettings
      (.jstr "q") (.jstr "D1") (.jstr "1.1") rfl rfl).1⟩

/-- C10: for every `app_mention` event carrying neither a
`thread_ts` nor a `ts` field, the handler makes no thread-history
fetch and still invokes the backend, with conversation identifier
`"slack-" ++ channel ++ "-None"` — the absent thread identity is
rendered as the literal string `"None"` inside the key. -/
theorem c10_mention_without_ts (fs : List (String × JVal)) (settings : Settings)
    (env : Env) (s ch : String)
    (htype : objGetD fs "type" .jnull = .jstr "app_mention")
    (htext : objGetD fs "text" (.jstr "") = .jstr s)
    (hch : objGetD fs "channel" (.jstr "") = .jstr ch)
    (hts : objLookup fs "ts" = none)
    (htts : objLookup fs "thread_ts" = none) :
    (∀ c2 t2, Effect.fetchReplies c2 t2 ∉ (invoke (mkEventReq (.jobj fs)) settings env).2) ∧
    Effect.invokeChat (mainArgs settings (.jstr (stripBotMention s)) (.jstr ch) .jnull)
      ∈ (invoke (mkEventReq (.jobj fs)) settings env).2 ∧
    (mainArgs settings (.jstr (stripBotMention s)) (.jstr ch) .jnull).conversationId
      = "slack-" ++ ch ++ "-None" := by
  have hmtt : mentionThreadTs fs = .jnull := by
    unfold mentionThreadTs objGetD
    simp [htts, hts]
  have hdisp : invoke (mkEventReq (.jobj fs)) settings env
      = handleMention env settings (.jobj fs) := by
    rw [invoke_mkEventReq_dispatch]
    simp [htype, pyEqVal]
  rw [hdisp, handleMention_run fs env settings s htext, hch, hmtt]
  refine ⟨?_, ?_, ?_⟩
  · intro c2 t2
    exact processAndRespond_no_fetch_of_not_truthy env settings
      (.jstr (stripBotMention s)) (.jstr ch) .jnull rfl c2 t2
  · have hi := processAndRespond_invokesOf_of_not_truthy env settings
      (.jstr (stripBotMention s)) (.jstr ch) .jnull rfl
    refine (mem_invokesOf _ _).mp ?_
    rw [hi]
    exact List.mem_singleton_self _
  · simp only [mainArgs, pyStr, pyRepr]
    rw [String.append_assoc]
    rfl

/-- C10 witness: a mention with only `text` and `channel` invokes the
backend under `"slack-C3-None"` with no history fetch. -/
theorem c10_witness :
    objLookup [("type", .jstr "app_mention"), ("text", .jstr "hey"), ("channel", .jstr "C3")]
        "ts" = none ∧
    Effect.invokeChat (mainArgs baseSettings (.jstr "hey") (.jstr "C3") .jnull)
      ∈ (invoke (mkEventReq (.jobj [("type", .jstr "app_mention"), ("text", .jstr "hey"),
           ("channel", .jstr "C3")])) baseSettings okEnv).2 ∧
    (mainArgs baseSettings (.jstr "hey") (.jstr "C3") .jnull).conversationId
      = "slack-C3-None" := by
  have h := c10_mention_without_ts
    [("type", .jstr "app_mention"), ("text", .jstr "hey"), ("channel", .jstr "C3")]
    baseSettings okEnv "hey" "C3" rfl rfl rfl rfl rfl
  refine ⟨rfl, ?_, ?_⟩
  · exact h.2.1
  · exact h.2.2

/-- C2: for every `event_callback` whose inner event has type
`message` (with a string channel and a platform-contract-conforming
environment), the backend is invoked if and only if the event carries
no (truthy) bot identifier and no `bot_message` subtype and the
channel starts with the DM prefix `"D"` or the event has a (truthy)
`thread_ts`; in every other case the handler returns status 200 with
body `"ok"` and makes no backend or platform call. -/
theorem c2_message_gating (fs : List (String × JVal)) (settings : Settings) (env : Env)
    (ch : String)
    (htype : objGetD fs "type" .jnull = .jstr "message")
    (hch : objGetD fs "channel" (.jstr "") = .jstr ch)
    (henv : envWFb env = true) :
    ((pyTruthy (objGetD fs "bot_id" .jnull) = false ∧
      pyEqVal (objGetD fs "subtype" .jnull) (.jstr "bot_message") = false ∧
      (strStartsWith ch "D" = true ∨ pyTruthy (objGetD fs "thread_ts" .jnull) = true))
      ↔ ∃ a, Effect.invokeChat a ∈ (invoke (mkEventReq (.jobj fs)) settings env).2) ∧
    (¬(pyTruthy (objGetD fs "bot_id" .jnull) = false ∧
       pyEqVal (objGetD fs "subtype" .jnull) (.jstr "bot_message") = false ∧
       (strStartsWith ch "D" = true ∨ pyTruthy (objGetD fs "thread_ts" .jnull) = true)) →
      invoke (mkEventReq (.jobj fs)) settings env = (.ok { status := 200, body := "ok" }, [])) := by
  have hdisp : invoke (mkEventReq (.jobj fs)) settings env
      = handleMessage env settings (.jobj fs) := by
    rw [invoke_mkEventReq_dispatch]
    simp [htype, pyEqVal]
  have hskip : ¬(pyTruthy (objGetD fs "bot_id" .jnull) = false ∧
      pyEqVal (objGetD fs "subtype" .jnull) (.jstr "bot_message") = false ∧
      (strStartsWith ch "D" = true ∨ pyTruthy (objGetD fs "thread_ts" .jnull) = true)) →
      handleMessage env settings (.jobj fs) = (.ok { status := 200, body := "ok" }, []) := by
    intro hnot
    by_cases hb : pyTruthy (objGetD fs "bot_id" .jnull) = true
    · exact handleMessage_skip_bot fs env settings (by simp [hb])
    · simp only [Bool.not_eq_true] at hb
      by_cases hsub : pyEqVal (objGetD fs "subtype" .jnull) (.jstr "bot_message") = true
      · exact handleMessage_skip_bot fs env settings (by simp [hsub])
      · simp only [Bool.not_eq_true] at hsub
        have hdm : strStartsWith ch "D" = false := by
          by_cases hd : strStartsWith ch "D" = true
          · exact absurd ⟨hb, hsub, Or.inl hd⟩ hnot
          · simpa using hd
        have hth : pyTruthy (objGetD fs "thread_ts" .jnull) = false := by
          by_cases ht2 : pyTruthy (objGetD fs "thread_ts" .jnull) = true
          · exact absurd ⟨hb, hsub, Or.inr ht2⟩ hnot
          · simpa using ht2
        exact handleMessage_skip_channel fs env settings ch hch (by simp [hb, hsub]) hdm hth
  rw [hdisp]
  constructor
  · constructor
    · rintro ⟨hb, hsub, helig⟩
      rw [handleMessage_run fs env settings ch hch (by simp [hb, hsub]) helig]
      exact ⟨mainArgs settings (objGetD fs "text" (.jstr "")) (.jstr ch) (msgThreadTs fs),
             processAndRespond_invoke_mem env settings _ _ _ henv⟩
    · rintro ⟨a, hmem⟩
      by_contra hnot
      rw [hskip hnot] at hmem
      simp at hmem
  · exact hskip

/-- C2 witness: a plain user DM (channel `"D42"`) satisfies the
gating conditions and the backend is invoked. -/
theorem c2_witness :
    (pyTruthy (objGetD [("type", .jstr "message"), ("channel", .jstr "D42"),
         ("ts", .jstr "5.5"), ("text", .jstr "yo")] "bot_id" .jnull) = false ∧
     pyEqVal (objGetD [("type", .jstr "message"), ("channel", .jstr "D42"),
         ("ts", .jstr "5.5"), ("text", .jstr "yo")] "subtype" .jnull)
        (.jstr "bot_message") = false ∧
     (strStartsWith "D42" "D" = true ∨
      pyTruthy (objGetD [("type", .jstr "message"), ("channel", .jstr "D42"),
          ("ts", .jstr "5.5"), ("text", .jstr "yo")] "thread_ts" .jnull) = true)) ∧
    ∃ a, Effect.invokeChat a ∈
      (invoke (mkEventReq (.jobj [("type", .jstr "message"), ("channel", .jstr "D42"),
          ("ts", .jstr "5.5"), ("text", .jstr "yo")])) baseSettings okEnv).2 := by
  refine ⟨⟨by decide, by decide, Or.inl (by decide)⟩, ?_⟩
  exact ((c2_message_gating [("type", .jstr "message"), ("channel", .jstr "D42"),
      ("ts", .jstr "5.5"), ("text", .jstr "yo")] baseSettings okEnv "D42"
      rfl rfl rfl).1).mp ⟨by decide, by decide, Or.inl (by decide)⟩

/-- C3: for every eligible event — either path — every chat
invocation in the trace carries the conversation identifier
`"slack-" ++ channel ++ "-" ++ threadIdentity`, where the thread
identity is the event's `thread_ts` when present (a nonempty string)
and otherwise its own `ts`; the identifier is a pure function of
those two fields, so two events with the same channel and resolved
thread identity produce identical conversation keys. -/
theorem c3_conversation_key (fs : List (String × JVal)) (settings : Settings) (env : Env)
    (ch tid : String)
    (hch : objGetD fs "channel" (.jstr "") = .jstr ch)
    (hts : (objLookup fs "thread_ts" = some (.jstr tid) ∧ tid ≠ "") ∨
           (objLookup fs "thread_ts" = none ∧ objLookup fs "ts" = some (.jstr tid))) :
    ∀ a, Effect.invokeChat a ∈ (invoke (mkEventReq (.jobj fs)) settings env).2 →
      a.conversationId = "slack-" ++ ch ++ "-" ++ tid := by
  have hmtt : mentionThreadTs fs = .jstr tid := by
    unfold mentionThreadTs objGetD
    rcases hts with ⟨h1, _⟩ | ⟨h1, h2⟩
    · simp [h1]
    · simp [h1, h2]
  have hmsgtt : msgThreadTs fs = .jstr tid := by
    unfold msgThreadTs objGetD
    rcases hts with ⟨h1, h2⟩ | ⟨h1, h2⟩
    · simp [h1, pyTruthy, h2]
    · simp [h1, h2, pyTruthy]
  intro a hmem
  rw [invoke_mkEventReq_dispatch] at hmem
  by_cases hm : pyEqVal (objGetD fs "type" .jnull) (.jstr "app_mention") = true
  · rw [if_pos hm] at hmem
    obtain ⟨s, _, ha⟩ := handleMention_invoke_unique fs env settings a hmem
    rw [ha, hch, hmtt]
    simp only [mainArgs, pyStr]
  · rw [if_neg hm] at hmem
    by_cases hmsg : pyEqVal (objGetD fs "type" .jnull) (.jstr "message") = true
    · rw [if_pos hmsg] at hmem
      have ha := handleMessage_invoke_unique fs env settings ch a hch hmem
      rw [ha, hmsgtt]
      simp only [mainArgs, pyStr]
    · rw [if_neg hmsg] at hmem
      simp at hmem

/-- C3 witness: a threaded mention in channel `"C7"` with
`thread_ts = "9.9"` yields conversation key `"slack-C7-9.9"` on its
backend invocation. -/
theorem c3_witness :
    objGetD [("type", .jstr "app_mention"), ("text", .jstr "hi"), ("channel", .jstr "C7"),
        ("ts", .jstr "9.1"), ("thread_ts", .jstr "9.9")] "channel" (.jstr "") = .jstr "C7" ∧
    ∀ a, Effect.invokeChat a ∈
        (invoke (mkEventReq (.jobj [("type", .jstr "app_mention"), ("text", .jstr "hi"),
            ("channel", .jstr "C7"), ("ts", .jstr "9.1"), ("thread_ts", .jstr "9.9")]))
          baseSettings okEnv).2 →
      a.conversationId = "slack-C7-9.9" := by
  refine ⟨rfl, fun a hmem => ?_⟩
  have h := c3_conversation_key [("type", .jstr "app_mention"), ("text", .jstr "hi"),
      ("channel", .jstr "C7"), ("ts", .jstr "9.1"), ("thread_ts", .jstr "9.9")]
    baseSettings okEnv "C7" "9.9" rfl (Or.inl ⟨rfl, by decide⟩) a hmem
  rw [h]
  rfl

/-- C6: for every `app_mention` event whose text is a string, the
text forwarded to the backend is the substring after the first
`"> "` delimiter when the text starts with `"<@"` and contains
`"> "`, and the unmodified text otherwise; and in a well-formed
environment such an invocation does occur. -/
theorem c6_mention_text_stripping (fs : List (String × JVal)) (settings : Settings)
    (env : Env) (s : String)
    (htype : objGetD fs "type" .jnull = .jstr "app_mention")
    (htext : objGetD fs "text" (.jstr "") = .jstr s)
    (henv : envWFb env = true) :
    Effect.invokeChat (mainArgs settings
        (.jstr (if strStartsWith s "<@" && pyContains s "> " then pyAfterFirst s "> " else s))
        (objGetD fs "channel" (.jstr "")) (mentionThreadTs fs))
      ∈ (invoke (mkEventReq (.jobj fs)) settings env).2 ∧
    (∀ a, Effect.invokeChat a ∈ (invoke (mkEventReq (.jobj fs)) settings env).2 →
      a.query = .jstr (if strStartsWith s "<@" && pyContains s "> "
                       then pyAfterFirst s "> " else s)) := by
  have hclean : stripBotMention s
      = (if strStartsWith s "<@" && pyContains s "> " then pyAfterFirst s "> " else s) := by
    unfold stripBotMention
    by_cases h1 : strStartsWith s "<@" = true <;>
      by_cases h2 : pyContains s "> " = true <;> simp [h1, h2]
  have hdisp : invoke (mkEventReq (.jobj fs)) settings env
      = handleMention env settings (.jobj fs) := by
    rw [invoke_mkEventReq_dispatch]
    simp [htype, pyEqVal]
  rw [hdisp, handleMention_run fs env settings s htext]
  constructor
  · rw [← hclean]
    exact processAndRespond_invoke_mem env settings _ _ _ henv
  · intro a hmem
    have ha := processAndRespond_invoke_unique env settings
      (.jstr (stripBotMention s)) (objGetD fs "channel" (.jstr "")) (mentionThreadTs fs) a hmem
    rw [ha, ← hclean]
    simp only [mainArgs]

/-- C6 witness: the text `"<@U123> hello there"` is forwarded as
`"hello there"`. -/
theorem c6_witness :
    objGetD [("type", .jstr "app_mention"), ("text", .jstr "<@U123> hello there"),
        ("channel", .jstr "C1"), ("ts", .jstr "2.2")] "text" (.jstr "")
      = .jstr "<@U123> hello there" ∧
    ∀ a, Effect.invokeChat a ∈
        (invoke (mkEventReq (.jobj [("type", .jstr "app_mention"),
            ("text", .jstr "<@U123> hello there"), ("channel", .jstr "C1"),
            ("ts", .jstr "2.2")])) baseSettings okEnv).2 →
      a.query = .jstr "hello there" := by
  refine ⟨rfl, fun a hmem => ?_⟩
  have h := (c6_mention_text_stripping [("type", .jstr "app_mention"),
      ("text", .jstr "<@U123> hello there"), ("channel", .jstr "C1"), ("ts", .jstr "2.2")]
    baseSettings okEnv "<@U123> hello there" rfl rfl rfl).2 a hmem
  rw [h]
  rfl
